import Mathlib

/-!
Verification of the request-builder/invoker core of `lab1_api.py`
(repository `dialogue_systems_2025_2026`).

The Python source is a notebook-style script with four relevant pieces:

* `get_client()` reads the environment variable `MISTRAL_API_KEY`,
  raises a configuration error when it is absent or empty, and otherwise
  builds a client holding the key;
* `basic_chat(prompt, model)` sends a single user message and returns
  `response.choices[0].message.content`;
* `chat_with_params(prompt, model, temperature=0.7, max_tokens=256, top_p=1.0)`
  sends a single user message together with the three generation knobs
  (always present, filled from the Python defaults when the caller omits
  them) and extracts the same field;
* `chat_with_system(system_prompt, user_prompt, model, temperature=0.7)`
  sends a system message followed by a user message, plus `temperature`.

The embedding models the remote service as an explicit function from a
client and a request to either an error or a response; Python exception
propagation becomes `Except` propagation, and the unguarded indexing
`choices[0]` becomes an explicit `indexError` on the empty list.
Floating-point knob values are modelled as rationals: the code performs
no arithmetic on them, only pass-through.
-/

/-- Message roles accepted by the chat-completion service. -/
inductive Role where
  | system
  | user
  | assistant
deriving DecidableEq, Repr

/-- A role-tagged message, as placed in the `messages` list of a request. -/
structure Message where
  role : Role
  content : String
deriving DecidableEq, Repr

/-- The outbound chat-completion request: model identifier, ordered message
list, and the three optional generation knobs (`none` means the knob is
absent from the payload). -/
structure Request where
  model : String
  messages : List Message
  temperature : Option ℚ
  max_tokens : Option Nat
  top_p : Option ℚ
deriving DecidableEq, Repr

/-- The `message` field of one completion choice; the code only ever reads
its `content`. -/
structure ChoiceMessage where
  content : String
deriving DecidableEq, Repr

/-- One completion choice of a service response. -/
structure Choice where
  message : ChoiceMessage
deriving DecidableEq, Repr

/-- A service response: a list of completion choices. -/
structure Response where
  choices : List Choice
deriving DecidableEq, Repr

/-- The errors the embedded code can surface: the configuration error raised
by `get_client` (Python `ValueError`), a failure of the remote call
(carrying the service's message verbatim), and the `IndexError` produced by
the unguarded `choices[0]` on an empty choice list. -/
inductive ChatError where
  | configurationError
  | serviceError (msg : String)
  | indexError
deriving DecidableEq, Repr

/-- The client handle built by `Mistral(api_key=...)`: it holds the
credential captured at construction time. -/
structure Client where
  api_key : String
deriving DecidableEq, Repr

/-- The remote chat-completion service, as the code sees it: given the
client handle and a request it either fails or returns a response. -/
abbrev Service := Client → Request → Except ChatError Response

/-- Embeds `get_client`: read `MISTRAL_API_KEY` from the environment; if it
is absent or empty (Python `if not api_key`), raise the configuration
error; otherwise build the client from the key. No service call is
involved (the definition does not take a `Service` at all). -/
def get_client (env : String → Option String) : Except ChatError Client :=
  match env "MISTRAL_API_KEY" with
  | none => .error .configurationError
  | some api_key =>
      if api_key = "" then .error .configurationError
      else .ok { api_key := api_key }

/-- Embeds `response.choices[0].message.content`: Python list indexing
raises `IndexError` on an empty list, otherwise yields the first
element. -/
def extract (response : Response) : Except ChatError String :=
  match response.choices with
  | [] => .error .indexError
  | c :: _ => .ok c.message.content

/-- The request built inside `basic_chat`: one user message, no generation
knobs in the payload. -/
def basicChatRequest (prompt : String)
    (model : String := "mistral-small-latest") : Request :=
  { model := model
    messages := [{ role := .user, content := prompt }]
    temperature := none
    max_tokens := none
    top_p := none }

/-- Embeds `basic_chat`: send the single-user-message request and return
the first choice's content; a service failure propagates unmodified. -/
def basic_chat (client : Client) (svc : Service) (prompt : String)
    (model : String := "mistral-small-latest") : Except ChatError String :=
  match svc client (basicChatRequest prompt model) with
  | .error e => .error e
  | .ok response => extract response

/-- The request built inside `chat_with_params`: one user message and all
three generation knobs, with the Python keyword defaults. -/
def chatWithParamsRequest (prompt : String)
    (model : String := "mistral-small-latest")
    (temperature : ℚ := 7/10) (max_tokens : Nat := 256)
    (top_p : ℚ := 1) : Request :=
  { model := model
    messages := [{ role := .user, content := prompt }]
    temperature := some temperature
    max_tokens := some max_tokens
    top_p := some top_p }

/-- Embeds `chat_with_params`: send the request carrying the three knobs
(filled from the Python defaults when the caller omits them) and return
the first choice's content. -/
def chat_with_params (client : Client) (svc : Service) (prompt : String)
    (model : String := "mistral-small-latest")
    (temperature : ℚ := 7/10) (max_tokens : Nat := 256)
    (top_p : ℚ := 1) : Except ChatError String :=
  match svc client
      (chatWithParamsRequest prompt model temperature max_tokens top_p) with
  | .error e => .error e
  | .ok response => extract response

/-- The request built inside `chat_with_system`: a system message followed
by a user message, plus `temperature` (default 0.7); the other knobs are
absent. -/
def chatWithSystemRequest (system_prompt user_prompt : String)
    (model : String := "mistral-small-latest")
    (temperature : ℚ := 7/10) : Request :=
  { model := model
    messages := [{ role := .system, content := system_prompt },
                 { role := .user, content := user_prompt }]
    temperature := some temperature
    max_tokens := none
    top_p := none }

/-- Embeds `chat_with_system`: send the two-message request and return the
first choice's content. -/
def chat_with_system (client : Client) (svc : Service)
    (system_prompt user_prompt : String)
    (model : String := "mistral-small-latest")
    (temperature : ℚ := 7/10) : Except ChatError String :=
  match svc client
      (chatWithSystemRequest system_prompt user_prompt model temperature) with
  | .error e => .error e
  | .ok response => extract response

/-- One call of the script against the module-level client: the three
operations with their explicit arguments. -/
inductive CallSpec where
  | basic (prompt model : String)
  | withParams (prompt model : String) (temperature : ℚ)
      (max_tokens : Nat) (top_p : ℚ)
  | withSystem (system_prompt user_prompt model : String) (temperature : ℚ)

/-- Executes one call against a given client handle and service, exactly as
the corresponding Python function does. -/
def execCall (client : Client) (svc : Service) : CallSpec → Except ChatError String
  | .basic p m => basic_chat client svc p m
  | .withParams p m t mt tp => chat_with_params client svc p m t mt tp
  | .withSystem s u m t => chat_with_system client svc s u m t

/-- Mirrors the script's top level: `client = get_client()` runs once at
module initialization against the environment of that moment, and every
later call reuses that one handle; the environment is never consulted
again. -/
def runModule (env : String → Option String) (svc : Service)
    (calls : List CallSpec) :
    Except ChatError (List (Except ChatError String)) :=
  match get_client env with
  | .error e => .error e
  | .ok client => .ok (calls.map (execCall client svc))

/-- A response is well formed when it has a first completion choice and
that choice carries non-empty text. -/
def wellFormedResponse (r : Response) : Prop :=
  ∃ c rest, r.choices = c :: rest ∧ c.message.content ≠ ""

/-- A mocked service that always succeeds with one choice of the given
text, regardless of client and request. -/
def mockOkSvc (text : String) : Service :=
  fun _ _ => .ok { choices := [{ message := { content := text } }] }

/-- A mocked service that always fails with the given service error. -/
def mockFailSvc (msg : String) : Service :=
  fun _ _ => .error (.serviceError msg)

/-- A mocked service that succeeds with an empty choice list. -/
def mockEmptySvc : Service :=
  fun _ _ => .ok { choices := [] }

/-- Claim C1: for every prompt and model, `basic_chat` (the spec's
`complete`) builds a request containing exactly one message, with role
user and content equal to the prompt, sends it, and returns the text of
the first completion choice of the service's response. -/
theorem basic_chat_single_user_message_and_first_choice
    (prompt model : String) (client : Client) (svc : Service)
    (resp : Response) (c : Choice) (rest : List Choice)
    (hsvc : svc client (basicChatRequest prompt model) = .ok resp)
    (hch : resp.choices = c :: rest) :
    (basicChatRequest prompt model).messages =
      [{ role := Role.user, content := prompt }] ∧
    basic_chat client svc prompt model = .ok c.message.content := by
  refine ⟨rfl, ?_⟩
  simp [basic_chat, hsvc, extract, hch]

/-- Witness for C1: the scenario of the spec, a mock returning one choice
with text Hello on prompt Say hi. -/
theorem basic_chat_single_user_message_and_first_choice_witness :
    (basicChatRequest "Say hi" "test-model").messages =
      [{ role := Role.user, content := "Say hi" }] ∧
    basic_chat (Client.mk "key") (mockOkSvc "Hello!") "Say hi" "test-model" =
      .ok "Hello!" :=
  basic_chat_single_user_message_and_first_choice "Say hi" "test-model"
    (Client.mk "key") (mockOkSvc "Hello!")
    { choices := [{ message := { content := "Hello!" } }] }
    { message := { content := "Hello!" } } [] rfl rfl

/-- Claim C2: each of the three knobs passed to `chat_with_params` appears
in the outbound request payload exactly as supplied by the caller
(identity pass-through, independently for temperature, max_tokens and
top_p). -/
theorem chat_with_params_knob_identity
    (prompt model : String) (t : ℚ) (mt : Nat) (tp : ℚ) :
    (chatWithParamsRequest prompt model t mt tp).temperature = some t ∧
    (chatWithParamsRequest prompt model t mt tp).max_tokens = some mt ∧
    (chatWithParamsRequest prompt model t mt tp).top_p = some tp :=
  ⟨rfl, rfl, rfl⟩

/-- Counterexample for C3: calling `chat_with_params` with no knob supplied
does NOT leave the knobs absent from the outbound request — the Python
keyword defaults (0.7, 256, 1.0) are sent. -/
theorem chat_with_params_omitted_knobs_still_sent :
    (chatWithParamsRequest "hi").temperature ≠ none ∧
    (chatWithParamsRequest "hi").max_tokens ≠ none ∧
    (chatWithParamsRequest "hi").top_p ≠ none := by
  refine ⟨?_, ?_, ?_⟩ <;> simp [chatWithParamsRequest]

/-- Claim C3 as amended: the knobs are optional for the caller of
`chat_with_params`, but an omitted knob is filled with the local default
(temperature 0.7, max_tokens 256, top_p 1.0) and is always present in the
outbound request, so the service applies those local values rather than
its own defaults; only `basic_chat` leaves all three knobs absent. -/
theorem chat_with_params_local_defaults (prompt : String) :
    (chatWithParamsRequest prompt).temperature = some (7/10) ∧
    (chatWithParamsRequest prompt).max_tokens = some 256 ∧
    (chatWithParamsRequest prompt).top_p = some 1 ∧
    (basicChatRequest prompt).temperature = none ∧
    (basicChatRequest prompt).max_tokens = none ∧
    (basicChatRequest prompt).top_p = none :=
  ⟨rfl, rfl, rfl, rfl, rfl, rfl⟩

/-- Claim C4: for every system prompt and user prompt, `chat_with_system`
(the spec's `completeWithSystemPrompt`) builds a request whose message
sequence is exactly the system message followed by the user message. -/
theorem chat_with_system_two_messages_in_order
    (system_prompt user_prompt model : String) (t : ℚ) :
    (chatWithSystemRequest system_prompt user_prompt model t).messages =
      [{ role := Role.system, content := system_prompt },
       { role := Role.user, content := user_prompt }] :=
  rfl

/-- Claim C5: when the credential environment variable is absent or empty,
`get_client` fails with the configuration error; no service call is
involved (the definition of `get_client` does not even take a service). -/
theorem get_client_missing_credential_fails
    (env : String → Option String)
    (h : env "MISTRAL_API_KEY" = none ∨ env "MISTRAL_API_KEY" = some "") :
    get_client env = .error .configurationError := by
  rcases h with h | h <;> simp [get_client, h]

/-- Witness for C5: an environment with no variables set at all. -/
theorem get_client_missing_credential_fails_witness :
    get_client (fun _ => none) = .error .configurationError :=
  get_client_missing_credential_fails (fun _ => none) (Or.inl rfl)

/-- Claim C6: when the service call fails, `basic_chat` propagates the
service error to the caller unmodified and returns no string. -/
theorem basic_chat_propagates_service_error
    (prompt model msg : String) (client : Client) (svc : Service)
    (h : svc client (basicChatRequest prompt model) =
      .error (.serviceError msg)) :
    basic_chat client svc prompt model = .error (.serviceError msg) ∧
    ∀ s : String, basic_chat client svc prompt model ≠ .ok s := by
  refine ⟨?_, ?_⟩ <;> simp [basic_chat, h]

/-- Witness for C6: a mock whose call always fails with a quota message. -/
theorem basic_chat_propagates_service_error_witness :
    basic_chat (Client.mk "key") (mockFailSvc "quota exceeded") "hi"
      "mistral-small-latest" = .error (.serviceError "quota exceeded") ∧
    ∀ s : String,
      basic_chat (Client.mk "key") (mockFailSvc "quota exceeded") "hi"
        "mistral-small-latest" ≠ .ok s :=
  basic_chat_propagates_service_error "hi" "mistral-small-latest"
    "quota exceeded" (Client.mk "key") (mockFailSvc "quota exceeded") rfl

/-- Claim C7: `chat_with_params` performs no range validation: any knob
values, including out-of-range ones, are forwarded to the service
unchanged, and the call succeeds whenever the service accepts it — no
local check rejects the values. -/
theorem chat_with_params_no_range_validation
    (prompt model : String) (t : ℚ) (mt : Nat) (tp : ℚ)
    (client : Client) (svc : Service)
    (resp : Response) (c : Choice) (rest : List Choice)
    (hsvc : svc client (chatWithParamsRequest prompt model t mt tp) = .ok resp)
    (hch : resp.choices = c :: rest) :
    (chatWithParamsRequest prompt model t mt tp).temperature = some t ∧
    (chatWithParamsRequest prompt model t mt tp).max_tokens = some mt ∧
    (chatWithParamsRequest prompt model t mt tp).top_p = some tp ∧
    chat_with_params client svc prompt model t mt tp = .ok c.message.content := by
  refine ⟨rfl, rfl, rfl, ?_⟩
  simp [chat_with_params, hsvc, extract, hch]

/-- Witness for C7: temperature 5 (outside [0,2]) and top_p 3 (outside
[0,1]) are forwarded as-is and the call completes once the service
accepts. -/
theorem chat_with_params_no_range_validation_witness :
    (chatWithParamsRequest "hi" "m" 5 10 3).temperature = some 5 ∧
    (chatWithParamsRequest "hi" "m" 5 10 3).max_tokens = some 10 ∧
    (chatWithParamsRequest "hi" "m" 5 10 3).top_p = some 3 ∧
    chat_with_params (Client.mk "key") (mockOkSvc "ok") "hi" "m" 5 10 3 =
      .ok "ok" :=
  chat_with_params_no_range_validation "hi" "m" 5 10 3 (Client.mk "key")
    (mockOkSvc "ok") { choices := [{ message := { content := "ok" } }] }
    { message := { content := "ok" } } [] rfl rfl

/-- Claim C8: for every prompt, `basic_chat` (the spec's `complete` with no
optional knobs supplied) returns a non-empty string whenever the mocked
service returns a well-formed completion choice list. -/
theorem basic_chat_nonempty_on_well_formed
    (prompt model : String) (client : Client) (svc : Service)
    (resp : Response)
    (hsvc : svc client (basicChatRequest prompt model) = .ok resp)
    (hwf : wellFormedResponse resp) :
    ∃ s : String, basic_chat client svc prompt model = .ok s ∧ s ≠ "" := by
  obtain ⟨c, rest, hch, hne⟩ := hwf
  exact ⟨c.message.content, by simp [basic_chat, hsvc, extract, hch], hne⟩

/-- Witness for C8: a mock returning one choice with non-empty text. -/
theorem basic_chat_nonempty_on_well_formed_witness :
    ∃ s : String,
      basic_chat (Client.mk "key") (mockOkSvc "Hello!") "hi"
        "mistral-small-latest" = .ok s ∧ s ≠ "" :=
  basic_chat_nonempty_on_well_formed "hi" "mistral-small-latest"
    (Client.mk "key") (mockOkSvc "Hello!")
    { choices := [{ message := { content := "Hello!" } }] } rfl
    ⟨{ message := { content := "Hello!" } }, [], rfl, by simp⟩

/-- Claim C9: the client is built once at module initialization from the
credential environment variable (and from nothing else in the
environment), and every later call of any of the three operations reuses
that one handle, so an environment differing only outside the credential
variable, or changing after initialization, yields the same calls. -/
theorem module_client_built_once_and_shared
    (env₁ env₂ : String → Option String) (svc : Service)
    (calls : List CallSpec) (client : Client)
    (hsame : env₁ "MISTRAL_API_KEY" = env₂ "MISTRAL_API_KEY")
    (hc : get_client env₁ = .ok client) :
    get_client env₁ = get_client env₂ ∧
    runModule env₁ svc calls = .ok (calls.map (execCall client svc)) ∧
    runModule env₂ svc calls = .ok (calls.map (execCall client svc)) := by
  have henv : get_client env₁ = get_client env₂ := by
    simp [get_client, hsame]
  refine ⟨henv, ?_, ?_⟩
  · simp [runModule, hc]
  · simp [runModule, ← henv, hc]

/-- Witness for C9: two environments agreeing on the credential but
differing elsewhere give the same client, and a basic call runs against
that shared handle under either. -/
theorem module_client_built_once_and_shared_witness :
    get_client (fun _ => some "key") =
      get_client (fun v => if v = "MISTRAL_API_KEY" then some "key" else none) ∧
    runModule (fun _ => some "key") (mockOkSvc "Hello!")
        [CallSpec.basic "hi" "m"] =
      .ok ([CallSpec.basic "hi" "m"].map
        (execCall (Client.mk "key") (mockOkSvc "Hello!"))) ∧
    runModule (fun v => if v = "MISTRAL_API_KEY" then some "key" else none)
        (mockOkSvc "Hello!") [CallSpec.basic "hi" "m"] =
      .ok ([CallSpec.basic "hi" "m"].map
        (execCall (Client.mk "key") (mockOkSvc "Hello!"))) :=
  module_client_built_once_and_shared (fun _ => some "key")
    (fun v => if v = "MISTRAL_API_KEY" then some "key" else none)
    (mockOkSvc "Hello!") [CallSpec.basic "hi" "m"] (Client.mk "key")
    (by simp) (by simp [get_client])

/-- Claim C10: when the service response has an empty completion choice
list, each of the three operations fails with the index error of the
unguarded first-choice access rather than returning a string, and
extraction succeeds exactly when the choice list is non-empty. -/
theorem empty_choices_extraction_fails
    (p m sys u : String) (t : ℚ) (mt : Nat) (tp : ℚ)
    (client : Client) (svc : Service) (resp : Response)
    (hch : resp.choices = [])
    (h1 : svc client (basicChatRequest p m) = .ok resp)
    (h2 : svc client (chatWithParamsRequest p m t mt tp) = .ok resp)
    (h3 : svc client (chatWithSystemRequest sys u m t) = .ok resp) :
    basic_chat client svc p m = .error .indexError ∧
    chat_with_params client svc p m t mt tp = .error .indexError ∧
    chat_with_system client svc sys u m t = .error .indexError ∧
    ∀ r : Response, (∃ s, extract r = .ok s) ↔ r.choices ≠ [] := by
  refine ⟨?_, ?_, ?_, ?_⟩
  · simp [basic_chat, h1, extract, hch]
  · simp [chat_with_params, h2, extract, hch]
  · simp [chat_with_system, h3, extract, hch]
  · intro r
    constructor
    · rintro ⟨s, hs⟩ hr
      simp [extract, hr] at hs
    · intro hr
      rcases hr' : r.choices with _ | ⟨c, rest⟩
      · exact absurd hr' hr
      · exact ⟨c.message.content, by simp [extract, hr']⟩

/-- Witness for C10: a mock returning an empty choice list makes all three
operations fail with the index error. -/
theorem empty_choices_extraction_fails_witness :
    basic_chat (Client.mk "key") mockEmptySvc "p" "m" = .error .indexError ∧
    chat_with_params (Client.mk "key") mockEmptySvc "p" "m" (7/10) 256 1 =
      .error .indexError ∧
    chat_with_system (Client.mk "key") mockEmptySvc "sys" "u" "m" (7/10) =
      .error .indexError ∧
    ∀ r : Response, (∃ s, extract r = .ok s) ↔ r.choices ≠ [] :=
  empty_choices_extraction_fails "p" "m" "sys" "u" (7/10) 256 1
    (Client.mk "key") mockEmptySvc { choices := [] } rfl rfl rfl rfl
